import Mathlib

/-!
Shallow embedding of the Telegram forward-bot (src/botScript.py): the
approval workflow state machine, the album assembler, the poll-command
parser, the relay-session bookkeeping and the channel publish path.

Conventions of the embedding:
  - Python dicts keyed by strings or user ids become association lists
    (`getA`, `setA`, `eraseA` mirror get / assignment / pop).
  - A `context.user_data` record becomes the `UserData` structure; a key
    that a Python dict does not hold is a field holding `none`.
  - Outbound transport calls are recorded in an `Effect` trace.  Calls the
    source wraps in try/except are best-effort: their delivery outcome does
    not steer control flow and they simply appear in the trace.  The two
    places where an outcome does steer control flow are modelled
    explicitly: the reachability probe of the contact/reply branches
    (`BtnCtx.probe`) and the channel send_poll retry loop
    (`BtnCtx.pollEnv` / `pollLoop`).
  - The single-image confirm_poll branch of the source references the
    local variable reply_markup before any assignment, so at run time it
    raises UnboundLocalError after the approval entry is inserted; the
    embedding marks that execution with `StepResult.aborted = true` and
    performs exactly the mutations the source performs before the raise.
  - Whitespace handling of str.strip and the regex classes \s and \S is
    modelled over the ASCII whitespace characters.
-/

set_option maxRecDepth 40000

namespace ForwardBot

abbrev Uid := Int

/-! ## Association-list operations mirroring Python dict get / set / pop -/

def getA {κ α : Type} [DecidableEq κ] (l : List (κ × α)) (k : κ) : Option α :=
  match l with
  | [] => none
  | (k1, v) :: t => if k1 = k then some v else getA t k

def setA {κ α : Type} [DecidableEq κ] (l : List (κ × α)) (k : κ) (v : α) : List (κ × α) :=
  match l with
  | [] => [(k, v)]
  | (k1, v1) :: t => if k1 = k then (k, v) :: t else (k1, v1) :: setA t k v

def eraseA {κ α : Type} [DecidableEq κ] (l : List (κ × α)) (k : κ) : List (κ × α) :=
  match l with
  | [] => []
  | (k1, v1) :: t => if k1 = k then t else (k1, v1) :: eraseA t k

/-! ## String helpers (ASCII model of the Python string operations used) -/

def isPyWS (c : Char) : Bool :=
  c == ' ' || c == '\t' || c == '\n' || c == '\r' || c == '\x0b' || c == '\x0c'

/-- str.strip of Python: drop whitespace from both ends. -/
def stripChars (l : List Char) : List Char :=
  ((l.dropWhile isPyWS).reverse.dropWhile isPyWS).reverse

def isPrefixL (p s : List Char) : Bool :=
  match p, s with
  | [], _ => true
  | _ :: _, [] => false
  | a :: as, b :: bs => a == b && isPrefixL as bs

def strStartsWith (s p : String) : Bool := isPrefixL p.data s.data

/-- data.split(chr(58), 1)[1] for callback payloads that contain a colon:
everything after the first colon. -/
def afterColon (s : String) : String :=
  String.mk ((s.data.dropWhile fun c => c != ':').drop 1)

/-! ## parse_poll (src/botScript.py lines 74-97)

The source matches the stripped text against the anchored regular
expression  /poll(?:@\S+)?\s*(.*)$  case-insensitively.  Because the dot
does not cross a newline and the input was stripped, the capture group is
the maximal-munch remainder and the match fails exactly when that
remainder still contains a newline. -/

/-- Regex tail when the optional @bot group is skipped: greedy \s* then
the anchored capture. -/
def regexNoGroup (t : List Char) : Option (List Char) :=
  let w := t.dropWhile isPyWS
  if w.contains '\n' then none else some w

/-- Match of (?:@\S+)?\s*(.*)$ against the text following the /poll token,
returning the capture group. -/
def regexRest (t : List Char) : Option (List Char) :=
  match t with
  | '@' :: c :: rest =>
      if isPyWS c then regexNoGroup t
      else
        let w := ((c :: rest).dropWhile (fun x => !isPyWS x)).dropWhile isPyWS
        if w.contains '\n' then none else some w
  | _ => regexNoGroup t

/-- Case-insensitive match of the anchored /poll command against the
stripped text; `some g` holds the capture group. -/
def pollCmdRest (text : String) : Option (List Char) :=
  if text = "" then none
  else
    let s := stripChars text.data
    if (s.take 5).map Char.toLower = "/poll".data then regexRest (s.drop 5)
    else none

/-- parse_poll: question and surviving options, or none. -/
def parse_poll (text : String) : Option (String × List String) :=
  match pollCmdRest text with
  | none => none
  | some g =>
    let rest := stripChars g
    if rest = [] then none
    else
      let parts := (rest.splitOn '|').map stripChars
      if parts.length < 2 then none
      else
        let options := ((parts.drop 1).filter (fun p => !p.isEmpty)).map String.mk
        if options.length < 2 then none
        else some (String.mk (parts.headD []), options)

/-- Segments of the captured group: split on the bar, each stripped. -/
def pollSegmentsOf (g : List Char) : List (List Char) :=
  ((stripChars g).splitOn '|').map stripChars

/-- First segment, the poll question. -/
def pollQuestionOf (g : List Char) : String :=
  String.mk ((pollSegmentsOf g).headD [])

/-- Trimmed non-empty segments after the first: the surviving options. -/
def pollOptionsOf (g : List Char) : List (List Char) :=
  ((pollSegmentsOf g).drop 1).filter (fun p => !p.isEmpty)

/-! ## Data model -/

/-- Python truthiness of an optional string: empty counts as absent. -/
def truthyStr : Option String → Option String
  | some s => if s = "" then none else some s
  | none => none

/-- Python truthiness of an optional list: empty counts as absent. -/
def truthyList {α : Type} [DecidableEq α] : Option (List α) → Option (List α)
  | some l => if l = [] then none else some l
  | none => none

/-- Python truthiness of an optional id: zero counts as absent. -/
def truthyId : Option Uid → Option Uid
  | some i => if i = 0 then none else some i
  | none => none

structure Submitter where
  id : Option Uid := none
  name : String := ""
  username : Option String := none
deriving DecidableEq, Repr

/-- An APPROVALS entry: single submissions carry file_id, albums carry
file_ids; poll holds the option list when the submission is a poll. -/
structure Approval where
  file_id : Option String := none
  file_ids : Option (List String) := none
  caption : Option String := none
  poll : Option (List String) := none
  submitter : Option Submitter := none
deriving DecidableEq, Repr

structure ContactTarget where
  approval_id : String
  submitter_id : Uid
deriving DecidableEq, Repr

structure ContactSource where
  owner_id : Uid
  approval_id : String
deriving DecidableEq, Repr

/-- Original-message reference kept beside the raw file id. -/
structure ImageRef where
  chat_id : Uid
  message_id : Nat
  file_id : String
deriving DecidableEq, Repr

/-- One per-user context.user_data record.  A missing dict key is `none`. -/
structure UserData where
  image_file_id : Option String := none
  image_file_ids : Option (List String) := none
  caption : Option String := none
  poll_question : Option String := none
  poll_options : Option (List String) := none
  image_item : Option ImageRef := none
  image_items : Option (List ImageRef) := none
  contact_target : Option ContactTarget := none
  contact_source : Option ContactSource := none
deriving DecidableEq, Repr, Inhabited

/-- Process-wide mutable state: APPROVALS and dispatcher.user_data. -/
structure BotState where
  approvals : List (String × Approval) := []
  users : List (Uid × UserData) := []
deriving DecidableEq, Repr, Inhabited

def getUser (st : BotState) (u : Uid) : UserData :=
  (getA st.users u).getD {}

def setUser (st : BotState) (u : Uid) (d : UserData) : BotState :=
  { st with users := setA st.users u d }

/-- The pop loop run when an approval entry is created: removes the five
enrichment keys and nothing else. -/
def clearEnrichment (d : UserData) : UserData :=
  { d with image_file_ids := none, image_file_id := none, caption := none,
           poll_options := none, poll_question := none }

/-! ## Outbound effects -/

inductive Chat where
  | owner
  | channel
  | user (id : Uid)
deriving DecidableEq, Repr

/-- Inline keyboards the bot attaches to messages. -/
inductive Kb where
  | yesNo
  | confirmCaption
  | confirmPoll
  | approveRow (id : String)
  | approveReplyRow (id : String)
deriving DecidableEq, Repr

inductive Effect where
  | sendMessage (chat : Chat) (text : String) (kb : Option Kb)
  | sendPhoto (chat : Chat) (photo : Option String) (caption : Option String) (kb : Option Kb)
  | sendMediaGroup (chat : Chat) (file_ids : List String) (firstCaption : Option String)
  | sendPoll (chat : Chat) (question : String) (options : List String)
  | editOrReply (text : String)
  | replyText (chat : Chat) (text : String)
  | sleep (seconds : Nat)
deriving DecidableEq, Repr

/-- Result of one handler invocation: the state afterwards, the attempted
outbound calls in order, and whether the handler aborted by an uncaught
exception. -/
structure StepResult where
  state : BotState
  effects : List Effect
  aborted : Bool := false
deriving DecidableEq, Repr

/-! ## forward_to_channel (src/botScript.py lines 857-918) -/

inductive SendResult where
  | ok
  | timedOut
  | err
deriving DecidableEq, Repr

inductive FileArg where
  | single (fid : Option String)
  | album (fids : List String)
deriving DecidableEq, Repr

/-- The send_poll retry loop: for attempt in range(3), break on success or
a non-timeout error, sleep one second and retry on TimedOut. -/
def pollLoop : Nat → Nat → (Nat → SendResult) → String → List String → List Effect
  | 0, _, _, _, _ => []
  | fuel + 1, attempt, env, q, opts =>
      Effect.sendPoll Chat.channel q opts ::
        (match env attempt with
         | SendResult.ok => []
         | SendResult.err => []
         | SendResult.timedOut => Effect.sleep 1 :: pollLoop fuel (attempt + 1) env q opts)

def forward_to_channel (env : Nat → SendResult) (f : FileArg)
    (caption poll_question : Option String) (poll_options : Option (List String)) :
    List Effect :=
  match f with
  | FileArg.album fids =>
      Effect.sendMediaGroup Chat.channel fids (truthyStr caption) ::
        (match truthyStr poll_question, truthyList poll_options with
         | some q, some opts => pollLoop 3 0 env q opts
         | _, _ => [])
  | FileArg.single fid =>
      match truthyStr poll_question, truthyList poll_options with
      | some q, some opts =>
          Effect.sendPhoto Chat.channel fid caption none :: pollLoop 3 0 env q opts
      | _, _ => [Effect.sendPhoto Chat.channel fid caption none]

/-! ## The button callback handler (src/botScript.py lines 297-605) -/

inductive ProbeResult where
  | ok
  | forbidden
  | unauthorized
  | other
deriving DecidableEq, Repr

/-- Per-invocation inputs of the button handler that the transport
supplies: the acting user, the uuid4 value minted for a new approval, how
get_chat resolves a user to name and username, the delivery outcome of the
reachability probe, and the outcomes of the send_poll attempts. -/
structure BtnCtx where
  user_id : Uid
  fresh_id : String
  resolve : Uid → String × Option String
  probe : ProbeResult
  pollEnv : Nat → SendResult

/-- _resolve_submitter: a falsy user id yields the Unknown record. -/
def resolveSubmitter (ctx : BtnCtx) (u : Uid) : Submitter :=
  if u = 0 then { id := none, name := "Unknown", username := none }
  else { id := some u, name := (ctx.resolve u).1, username := (ctx.resolve u).2 }

/-- Submitted-by line, with the optional at-handle. -/
def submitText (s : Submitter) : String :=
  "Submitted by: " ++ s.name ++
    (match truthyStr s.username with
     | some u => " (@" ++ u ++ ")"
     | none => "")

def guideText : String :=
  "Send me the caption or poll.\n\n" ++
  "To add a caption:\n" ++
  "- Just type the caption text and send it.\n\n" ++
  "To create a poll:\n" ++
  "- Start your message with /poll followed by the question and each option separated by a vertical bar |.\n" ++
  "- Format: /poll Question|Option 1|Option 2|Option 3\n" ++
  "- Example: /poll Which color do you prefer?|Red|Blue|Green\n\n" ++
  "Important:\n" ++
  "- Polls must have at least 2 options (and up to 10).\n" ++
  "- The first item after /poll is the poll question; the remaining items are the options.\n" ++
  "- Avoid using | inside option text (use it only as the separator).\n\n" ++
  "After you send the caption or /poll message the bot will preview the photo with your caption or poll.\n" ++
  "Tap Confirm to forward it for approval, or New Input to change it."

def notFoundMsg : String := "Approval item not found or already processed."

/-- Best-effort notification of the submitter after a terminal action. -/
def notifySubmitter (a : Approval) (text : String) : List Effect :=
  match a.submitter with
  | some s =>
      match truthyId s.id with
      | some sid => [Effect.sendMessage (Chat.user sid) text none]
      | none => []
  | none => []

/-- data equal to no_caption_poll (lines 309-355). -/
def noCaptionStep (ctx : BtnCtx) (st : BotState) : StepResult :=
  let ud := getUser st ctx.user_id
  match truthyList ud.image_file_ids with
  | some file_ids =>
      let submitter := resolveSubmitter ctx ctx.user_id
      let entry : Approval := { file_ids := some file_ids, submitter := some submitter }
      let stA : BotState := { st with approvals := setA st.approvals ctx.fresh_id entry }
      let stB := setUser stA ctx.user_id (clearEnrichment ud)
      { state := stB,
        effects := [Effect.sendMediaGroup Chat.owner file_ids none,
                    Effect.sendMessage Chat.owner
                      ("Approval request for album\n" ++ submitText submitter)
                      (some (Kb.approveReplyRow ctx.fresh_id)),
                    Effect.editOrReply "Album forwarded to the channel for approval."] }
  | none =>
    match truthyStr ud.image_file_id with
    | none =>
        { state := st,
          effects := [Effect.editOrReply "No image found to forward for approval."] }
    | some file_id =>
        let submitter := resolveSubmitter ctx ctx.user_id
        let entry : Approval := { file_id := some file_id, submitter := some submitter }
        let stA : BotState := { st with approvals := setA st.approvals ctx.fresh_id entry }
        let stB := setUser stA ctx.user_id (clearEnrichment ud)
        { state := stB,
          effects := [Effect.sendPhoto Chat.owner (some file_id)
                        (some ("Approval request\n" ++ submitText submitter))
                        (some (Kb.approveReplyRow ctx.fresh_id)),
                      Effect.editOrReply "Image forwarded to the channel for approval."] }

/-- data equal to confirm_caption (lines 358-405); the guards test key
presence, not truthiness. -/
def confirmCaptionStep (ctx : BtnCtx) (st : BotState) : StepResult :=
  let ud := getUser st ctx.user_id
  match ud.image_file_ids, ud.caption with
  | some file_ids, some cap =>
      let submitter := resolveSubmitter ctx ctx.user_id
      let entry : Approval :=
        { file_ids := some file_ids, caption := some cap, submitter := some submitter }
      let stA : BotState := { st with approvals := setA st.approvals ctx.fresh_id entry }
      let stB := setUser stA ctx.user_id (clearEnrichment ud)
      { state := stB,
        effects := [Effect.sendMediaGroup Chat.owner file_ids (some cap),
                    Effect.sendMessage Chat.owner
                      ("Approval request for album\n" ++ submitText submitter)
                      (some (Kb.approveReplyRow ctx.fresh_id)),
                    Effect.editOrReply "Album with caption forwarded to the channel for approval."] }
  | _, _ =>
    match ud.image_file_id, ud.caption with
    | some file_id, some cap =>
        let submitter := resolveSubmitter ctx ctx.user_id
        let entry : Approval :=
          { file_id := some file_id, caption := some cap, submitter := some submitter }
        let stA : BotState := { st with approvals := setA st.approvals ctx.fresh_id entry }
        let stB := setUser stA ctx.user_id (clearEnrichment ud)
        { state := stB,
          effects := [Effect.sendPhoto Chat.owner (some file_id)
                        (some (cap ++ "\n\n" ++ submitText submitter))
                        (some (Kb.approveRow ctx.fresh_id)),
                      Effect.editOrReply "Image with caption forwarded to the channel for approval."] }
    | _, _ => { state := st, effects := [] }

/-- data equal to confirm_poll (lines 407-455).  The album arm completes;
the single-image arm references reply_markup before assignment and aborts
with UnboundLocalError right after inserting the approval entry. -/
def confirmPollStep (ctx : BtnCtx) (st : BotState) : StepResult :=
  let ud := getUser st ctx.user_id
  match ud.image_file_ids, ud.poll_options with
  | some file_ids, some poll_options =>
      let poll_question := ud.poll_question.getD "Poll Question"
      let submitter := resolveSubmitter ctx ctx.user_id
      let entry : Approval :=
        { file_ids := some file_ids, caption := some poll_question,
          poll := some poll_options, submitter := some submitter }
      let stA : BotState := { st with approvals := setA st.approvals ctx.fresh_id entry }
      let stB := setUser stA ctx.user_id (clearEnrichment ud)
      { state := stB,
        effects := [Effect.sendMediaGroup Chat.owner file_ids (some poll_question),
                    Effect.sendMessage Chat.owner
                      ("Approval request for album (poll)\n" ++ submitText submitter)
                      (some (Kb.approveReplyRow ctx.fresh_id)),
                    Effect.editOrReply "Album with poll forwarded to the channel for approval."] }
  | _, _ =>
    match ud.image_file_id, ud.poll_options with
    | some file_id, some poll_options =>
        let poll_question := ud.poll_question.getD "Poll Question"
        let submitter := resolveSubmitter ctx ctx.user_id
        let entry : Approval :=
          { file_id := some file_id, caption := some poll_question,
            poll := some poll_options, submitter := some submitter }
        let stA : BotState := { st with approvals := setA st.approvals ctx.fresh_id entry }
        -- UnboundLocalError at the send_photo call: the session keys are
        -- never popped and no reply is sent.
        { state := stA, effects := [], aborted := true }
    | _, _ => { state := st, effects := [] }

def contactPingText : String :=
  "Admin wants to contact you regarding your submission. Reply to this message to start a chat (the admin will remain anonymous)."

def replyPingText : String :=
  "Admin replied to your submission. Reply to this message to continue the conversation (admin will remain anonymous)."

/-- The three except clauses of the contact probe. -/
def contactFailHint (p : ProbeResult) (sid : Uid) : String :=
  match p with
  | ProbeResult.forbidden =>
      "Failed to deliver message to the submitter (they may not have started the bot or have blocked it). You can try contacting them directly: tg://user?id=" ++ toString sid
  | ProbeResult.unauthorized =>
      "Failed to deliver message to the submitter (bot unauthorized). Fallback: tg://user?id=" ++ toString sid
  | ProbeResult.other =>
      "Failed to deliver message to submitter (error). You can try tg://user?id=" ++ toString sid
  | ProbeResult.ok => ""

def replyFailHint (sid : Uid) : String :=
  "Failed to deliver message to the submitter. Try tg://user?id=" ++ toString sid

/-- data beginning contact_post: (lines 462-505). -/
def contactStep (ctx : BtnCtx) (st : BotState) (approval_id : String) : StepResult :=
  match getA st.approvals approval_id with
  | none => { state := st, effects := [Effect.editOrReply notFoundMsg] }
  | some approval =>
    match approval.submitter with
    | none => { state := st, effects := [Effect.editOrReply "Submitter information not available."] }
    | some s =>
      match truthyId s.id with
      | none => { state := st, effects := [Effect.editOrReply "Submitter information not available."] }
      | some submitter_id =>
        let ping := Effect.sendMessage (Chat.user submitter_id) contactPingText none
        match ctx.probe with
        | ProbeResult.ok =>
            let ud1 := { getUser st ctx.user_id with
                         contact_target := some { approval_id := approval_id, submitter_id := submitter_id } }
            let stA := setUser st ctx.user_id ud1
            let sd := getUser stA submitter_id
            let stB := setUser stA submitter_id
              { sd with contact_source := some { owner_id := ctx.user_id, approval_id := approval_id } }
            { state := stB,
              effects := [ping,
                          Effect.sendMessage (Chat.user ctx.user_id)
                            "Contact established — you may now send messages; they will be forwarded anonymously. Send /cancel to end this session."
                            none] }
        | p => { state := st, effects := [ping, Effect.editOrReply (contactFailHint p submitter_id)] }

/-- data beginning reply_post: (lines 507-541). -/
def replyStep (ctx : BtnCtx) (st : BotState) (approval_id : String) : StepResult :=
  match getA st.approvals approval_id with
  | none => { state := st, effects := [Effect.editOrReply notFoundMsg] }
  | some approval =>
    match approval.submitter with
    | none => { state := st, effects := [Effect.editOrReply "Submitter information not available."] }
    | some s =>
      match truthyId s.id with
      | none => { state := st, effects := [Effect.editOrReply "Submitter information not available."] }
      | some submitter_id =>
        let ping := Effect.sendMessage (Chat.user submitter_id) replyPingText none
        match ctx.probe with
        | ProbeResult.ok =>
            let ud1 := { getUser st ctx.user_id with
                         contact_target := some { approval_id := approval_id, submitter_id := submitter_id } }
            let stA := setUser st ctx.user_id ud1
            let sd := getUser stA submitter_id
            let stB := setUser stA submitter_id
              { sd with contact_source := some { owner_id := ctx.user_id, approval_id := approval_id } }
            { state := stB,
              effects := [ping,
                          Effect.sendMessage (Chat.user ctx.user_id)
                            "Reply session established — send messages; they will be forwarded anonymously. Send /cancel to end."
                            none] }
        | _ => { state := st, effects := [ping, Effect.editOrReply (replyFailHint submitter_id)] }

/-- data beginning approve: (lines 552-589): pop the entry, publish and
notify, or report the not-found message. -/
def approveStep (ctx : BtnCtx) (st : BotState) (approval_id : String) : StepResult :=
  let popped := getA st.approvals approval_id
  let st1 : BotState := { st with approvals := eraseA st.approvals approval_id }
  match popped with
  | none => { state := st1, effects := [Effect.editOrReply notFoundMsg] }
  | some approval =>
    match truthyList approval.file_ids with
    | some file_ids =>
        { state := st1,
          effects := forward_to_channel ctx.pollEnv (FileArg.album file_ids) approval.caption
              (match truthyList approval.poll with
               | some _ => approval.caption
               | none => none) approval.poll
            ++ [Effect.editOrReply "Album approved and forwarded to the channel."]
            ++ notifySubmitter approval "Your submission was approved and forwarded to the channel." }
    | none =>
        { state := st1,
          effects := forward_to_channel ctx.pollEnv (FileArg.single approval.file_id) approval.caption
              (match truthyList approval.poll with
               | some _ => approval.caption
               | none => none) approval.poll
            ++ [Effect.editOrReply "Message approved and forwarded to the channel."]
            ++ notifySubmitter approval "Your submission was approved and forwarded to the channel." }

/-- data beginning disapprove: (lines 591-604): pop the entry, notify the
submitter when there was one, and acknowledge unconditionally. -/
def disapproveStep (_ctx : BtnCtx) (st : BotState) (approval_id : String) : StepResult :=
  let popped := getA st.approvals approval_id
  let st1 : BotState := { st with approvals := eraseA st.approvals approval_id }
  match popped with
  | some approval =>
      { state := st1,
        effects := notifySubmitter approval "Your submission was disapproved by the admin."
          ++ [Effect.editOrReply "Message disapproved."] }
  | none => { state := st1, effects := [Effect.editOrReply "Message disapproved."] }

/-- The button callback dispatcher, in the order of the source if chain. -/
def button (ctx : BtnCtx) (st : BotState) (data : String) : StepResult :=
  if data = "add_caption_poll" then
    { state := st, effects := [Effect.editOrReply guideText] }
  else if data = "no_caption_poll" then noCaptionStep ctx st
  else if data = "confirm_caption" then confirmCaptionStep ctx st
  else if data = "confirm_poll" then confirmPollStep ctx st
  else if data = "new_input" then
    { state := st, effects := [Effect.editOrReply guideText] }
  else if strStartsWith data "contact_post:" then contactStep ctx st (afterColon data)
  else if strStartsWith data "reply_post:" then replyStep ctx st (afterColon data)
  else if data = "approve" then { state := st, effects := [] }
  else if data = "disapprove" then { state := st, effects := [] }
  else if strStartsWith data "approve:" then approveStep ctx st (afterColon data)
  else if strStartsWith data "disapprove:" then disapproveStep ctx st (afterColon data)
  else { state := st, effects := [] }

/-! ## handle_caption_poll (src/botScript.py lines 607-713) -/

def handle_caption_poll (st : BotState) (uid : Uid) (text : String) : StepResult :=
  let ud := getUser st uid
  match ud.image_file_ids with
  | some file_ids =>
    match parse_poll text with
    | some (q, opts) =>
        if opts.length < 2 then
          { state := st,
            effects := [Effect.replyText (Chat.user uid)
              "Please provide at least two options for the poll, separated by |."] }
        else
          { state := setUser st uid { ud with poll_options := some opts, poll_question := some q },
            effects := [Effect.sendMediaGroup (Chat.user uid) file_ids (some q),
                        Effect.sendMessage (Chat.user uid)
                          "Preview: album with poll. Confirm or provide new input."
                          (some Kb.confirmPoll)] }
    | none =>
        { state := setUser st uid { ud with caption := some text },
          effects := [Effect.sendMediaGroup (Chat.user uid) file_ids (some text),
                      Effect.sendMessage (Chat.user uid)
                        "Preview: album caption. Confirm or provide new input."
                        (some Kb.confirmCaption)] }
  | none =>
    match ud.image_file_id with
    | some file_id =>
      match parse_poll text with
      | some (q, opts) =>
          if opts.length < 2 then
            { state := st,
              effects := [Effect.replyText (Chat.user uid)
                "Please provide at least two options for the poll, separated by |."] }
          else
            { state := setUser st uid { ud with poll_options := some opts, poll_question := some q },
              effects := [Effect.sendPhoto (Chat.user uid) (some file_id) (some q) none,
                          Effect.sendMessage (Chat.user uid)
                            "Preview: photo with poll. Confirm or provide new input."
                            (some Kb.confirmPoll)] }
      | none =>
          { state := setUser st uid { ud with caption := some text },
            effects := [Effect.sendPhoto (Chat.user uid) (some file_id) (some text) none,
                        Effect.sendMessage (Chat.user uid)
                          "Preview: photo caption. Confirm or provide new input."
                          (some Kb.confirmCaption)] }
    | none =>
        { state := st,
          effects := [Effect.replyText (Chat.user uid) "No image found. Please send an image first."] }

/-! ## relay_messages and the dispatcher handler groups (lines 716-769, 920-944) -/

/-- One inbound update: a text body, a photo, or a callback action. -/
structure UpdateIn where
  text : Option String := none
  photoFileId : Option String := none
  callback : Option String := none
deriving DecidableEq, Repr

def relay_messages (st : BotState) (uid : Uid) (fullName : String) (m : UpdateIn) : StepResult :=
  let ud := getUser st uid
  match (if uid = 0 then none else ud.contact_target) with
  | some tgt =>
      { state := st,
        effects :=
          match truthyStr m.text with
          | some t =>
              [Effect.sendMessage (Chat.user tgt.submitter_id)
                ("Admin message regarding your submission: \n\n" ++ t) none]
          | none =>
            match m.photoFileId with
            | some fid =>
                [Effect.sendPhoto (Chat.user tgt.submitter_id) (some fid)
                  (some "Admin sent a photo regarding your submission") none]
            | none => [] }
  | none =>
    match ud.contact_source with
    | some src =>
        { state := st,
          effects :=
            match truthyStr m.text with
            | some t =>
                [Effect.sendMessage (Chat.user src.owner_id)
                  ("Message from " ++ fullName ++ " regarding submission " ++ src.approval_id ++ ":\n\n" ++ t) none]
            | none =>
              match m.photoFileId with
              | some fid =>
                  [Effect.sendPhoto (Chat.user src.owner_id) (some fid)
                    (some ("Photo from " ++ fullName ++ " regarding submission " ++ src.approval_id)) none]
              | none => [] }
    | none => { state := st, effects := [] }

inductive HandlerTag where
  | startH
  | handleImage
  | relayMessages
  | handleCaptionPoll
  | cancelContact
  | buttonH
  | noneH
deriving DecidableEq, Repr

/-- Telegram command detection: the first whitespace-delimited token is
the slash command, optionally suffixed with an at-handle. -/
def matchesCmd (u : UpdateIn) (name : String) : Bool :=
  match u.text with
  | some t =>
      let tok := t.data.takeWhile (fun c => c != ' ')
      tok == '/' :: name.data || isPrefixL ('/' :: name.data ++ ['@']) tok
  | none => false

def isTextNonCommand (u : UpdateIn) : Bool :=
  match u.text with
  | some t => !(strStartsWith t "/")
  | none => false

/-- Handler selection of dispatcher group 0 (main, lines 931-944): the
first registered handler whose filter matches consumes the update; a
callback update matches only the CallbackQueryHandler. -/
def dispatchHandler (u : UpdateIn) : HandlerTag :=
  match u.callback with
  | some _ => HandlerTag.buttonH
  | none =>
    if matchesCmd u "start" then HandlerTag.startH
    else if u.photoFileId.isSome then HandlerTag.handleImage
    else if (isTextNonCommand u || u.photoFileId.isSome) then HandlerTag.relayMessages
    else if isTextNonCommand u then HandlerTag.handleCaptionPoll
    else if matchesCmd u "poll" then HandlerTag.handleCaptionPoll
    else if matchesCmd u "cancel" then HandlerTag.cancelContact
    else HandlerTag.noneH

/-! ## The album assembler (src/botScript.py lines 174-231) -/

structure BufferedItem where
  file_id : String
  caption : Option String := none
  message_id : Nat := 0
  chat_id : Uid := 0
deriving DecidableEq, Repr

structure PendingEntry where
  items : List BufferedItem
  timer : Option Nat
  user_id : Option Uid
deriving DecidableEq, Repr

/-- MEDIA_GROUPS plus an explicit ledger of the debounce timers: every
scheduled timer gets a fresh id from nextTimer, and cancelling records the
id in cancelled. -/
structure AssemblerState where
  groups : List ((Uid × String) × PendingEntry)
  nextTimer : Nat
  scheduled : List (Nat × (Uid × String))
  cancelled : List Nat
deriving DecidableEq, Repr

/-- _buffer_media_group: append the item, cancel the outstanding timer of
the key, schedule a fresh one. -/
def buffer_media_group (st : AssemblerState) (chat_id : Uid) (mgid : String)
    (it : BufferedItem) (uid : Option Uid) : AssemblerState :=
  let key := (chat_id, mgid)
  let entry := (getA st.groups key).getD { items := [], timer := none, user_id := uid }
  let cancelled1 :=
    match entry.timer with
    | some t => t :: st.cancelled
    | none => st.cancelled
  let entry1 : PendingEntry := { entry with items := entry.items ++ [it], timer := some st.nextTimer }
  { groups := setA st.groups key entry1,
    nextTimer := st.nextTimer + 1,
    scheduled := (st.nextTimer, key) :: st.scheduled,
    cancelled := cancelled1 }

/-- First truthy per-item caption in arrival order. -/
def firstItemCaption (items : List BufferedItem) : Option String :=
  match items with
  | [] => none
  | it :: rest =>
    match it.caption with
    | some c => if c = "" then firstItemCaption rest else some c
    | none => firstItemCaption rest

/-- _process_media_group up to the flush: pop the group and return the
file ids in arrival order with the album caption, or nothing when the key
was already flushed. -/
def process_media_group (st : AssemblerState) (chat_id : Uid) (mgid : String) :
    AssemblerState × Option (List String × Option String) :=
  let key := (chat_id, mgid)
  match getA st.groups key with
  | none => (st, none)
  | some entry =>
    let st1 : AssemblerState := { st with groups := eraseA st.groups key }
    match entry.items with
    | [] => (st1, none)
    | _ => (st1, some (entry.items.map (fun it => it.file_id), firstItemCaption entry.items))

/-- A burst of photo events sharing one group key, each inside the
debounce window of the one before: no timer fires in between. -/
def ingestAll (st : AssemblerState) (chat_id : Uid) (mgid : String) (uid : Option Uid)
    (items : List BufferedItem) : AssemblerState :=
  items.foldl (fun s it => buffer_media_group s chat_id mgid it uid) st

/-- Timers of the key that are scheduled and not cancelled. -/
def liveTimersFor (st : AssemblerState) (key : Uid × String) : List Nat :=
  (st.scheduled.filter fun p => decide (p.2 = key) && decide (p.1 ∉ st.cancelled)).map Prod.fst

/-- Every timer id the ledger has handed out is below nextTimer. -/
def timerBound (st : AssemblerState) : Prop :=
  (∀ p ∈ st.scheduled, p.1 < st.nextTimer) ∧ (∀ t ∈ st.cancelled, t < st.nextTimer)

/-- Invariant after a burst: the key holds exactly the buffered items, its
binding is unique, and exactly one live timer points at it. -/
def GroupLive (st : AssemblerState) (key : Uid × String) (its : List BufferedItem) : Prop :=
  timerBound st ∧
  getA (eraseA st.groups key) key = none ∧
  ∃ e, getA st.groups key = some e ∧ e.items = its ∧
    ∃ t, e.timer = some t ∧ liveTimersFor st key = [t]

/-! ## Effect counting used by the publish-policy claims -/

def isChannelMedia : Effect → Bool
  | Effect.sendPhoto Chat.channel _ _ _ => true
  | Effect.sendMediaGroup Chat.channel _ _ => true
  | _ => false

def isPollSend : Effect → Bool
  | Effect.sendPoll _ _ _ => true
  | _ => false

/-- Number of send_poll attempts the retry loop makes under the given
outcomes: stop at the first non-timeout, never more than three. -/
def attemptsTaken (env : Nat → SendResult) : Nat :=
  if env 0 ≠ SendResult.timedOut then 1
  else if env 1 ≠ SendResult.timedOut then 2
  else 3


/-! ## Concrete sample data used by the closed witnesses and counterexamples -/

def sampleCtx : BtnCtx :=
  { user_id := 7, fresh_id := "newid", resolve := fun u => (toString u, none),
    probe := ProbeResult.ok, pollEnv := fun _ => SendResult.ok }

def failCtx : BtnCtx := { sampleCtx with probe := ProbeResult.forbidden }

/-- First send_poll attempt times out, the second succeeds. -/
def retryEnv : Nat → SendResult := fun n => if n = 0 then SendResult.timedOut else SendResult.ok

def bobSubmitter : Submitter := { id := some 9, name := "Bob", username := none }

def c1entry : Approval := { file_id := some "f1", submitter := some bobSubmitter }

def c1st : BotState := { approvals := [("a1", c1entry)], users := [] }

def c1st2 : BotState := { approvals := [], users := [] }

def c4ud : UserData :=
  { image_file_id := some "img", poll_question := some "Q", poll_options := some ["A", "B"],
    contact_target := some { approval_id := "prev", submitter_id := 42 } }

def c4st : BotState := { approvals := [], users := [(7, c4ud)] }

def c5st : BotState := { approvals := [], users := [(7, { image_file_id := some "photo1" })] }

def c5upd : UpdateIn := { text := some "My Caption" }

def c6st : BotState := { approvals := [], users := [(7, { image_file_ids := some ["f1", "f2"] })] }

def c7st : BotState :=
  { approvals := [], users := [(7, { image_file_id := some "img", caption := some "Draft" })] }

def c3st : BotState := { approvals := [], users := [(7, { image_file_id := some "img" })] }

def c10st : BotState :=
  { approvals := [], users := [(7, { image_file_ids := some [], image_file_id := some "" })] }

def emptyAsm : AssemblerState := { groups := [], nextTimer := 0, scheduled := [], cancelled := [] }

def c2items : List BufferedItem :=
  [{ file_id := "p1" }, { file_id := "p2", caption := some "Cap" }, { file_id := "p3" }]

/-! ## Association-list lemmas -/

theorem getA_setA_self {κ α : Type} [DecidableEq κ] (l : List (κ × α)) (k : κ) (v : α) :
    getA (setA l k v) k = some v := by
  induction l with
  | nil => simp [getA, setA]
  | cons hd t ih =>
      obtain ⟨k1, v1⟩ := hd
      by_cases hk : k1 = k
      · simp [getA, setA, hk]
      · simp [getA, setA, hk, ih]

theorem getA_setA_ne {κ α : Type} [DecidableEq κ] (l : List (κ × α)) (k k1 : κ) (v : α)
    (h : k ≠ k1) : getA (setA l k v) k1 = getA l k1 := by
  induction l with
  | nil => simp [getA, setA, h]
  | cons hd t ih =>
      obtain ⟨k2, v2⟩ := hd
      by_cases hk : k2 = k
      · subst hk; simp [getA, setA, h]
      · simp [getA, setA, hk, ih]

theorem eraseA_of_getA_none {κ α : Type} [DecidableEq κ] (l : List (κ × α)) (k : κ)
    (h : getA l k = none) : eraseA l k = l := by
  induction l with
  | nil => simp [eraseA]
  | cons hd t ih =>
      obtain ⟨k1, v1⟩ := hd
      by_cases hk : k1 = k
      · simp [getA, hk] at h
      · simp [getA, hk] at h
        simp [eraseA, hk, ih h]

theorem eraseA_setA_absent {κ α : Type} [DecidableEq κ] (l : List (κ × α)) (k : κ) (v : α)
    (h : getA l k = none) : eraseA (setA l k v) k = l := by
  induction l with
  | nil => simp [setA, eraseA]
  | cons hd t ih =>
      obtain ⟨k1, v1⟩ := hd
      by_cases hk : k1 = k
      · simp [getA, hk] at h
      · simp [getA, hk] at h
        simp [setA, eraseA, hk, ih h]

theorem eraseA_setA_present {κ α : Type} [DecidableEq κ] (l : List (κ × α)) (k : κ) (v w : α)
    (h : getA l k = some w) : eraseA (setA l k v) k = eraseA l k := by
  induction l with
  | nil => simp [getA] at h
  | cons hd t ih =>
      obtain ⟨k1, v1⟩ := hd
      by_cases hk : k1 = k
      · simp [setA, eraseA, hk]
      · simp [getA, hk] at h
        simp [setA, eraseA, hk, ih h]

theorem getA_none_of_not_mem {κ α : Type} [DecidableEq κ] (l : List (κ × α)) (k : κ)
    (h : k ∉ l.map Prod.fst) : getA l k = none := by
  induction l with
  | nil => simp [getA]
  | cons hd t ih =>
      obtain ⟨k1, v1⟩ := hd
      simp only [List.map_cons, List.mem_cons] at h
      push_neg at h
      simp [getA, fun hh : k1 = k => h.1 hh.symm, ih h.2, Ne.symm h.1]

theorem getA_eraseA_nodup {κ α : Type} [DecidableEq κ] (l : List (κ × α)) (k : κ)
    (h : (l.map Prod.fst).Nodup) : getA (eraseA l k) k = none := by
  induction l with
  | nil => simp [eraseA, getA]
  | cons hd t ih =>
      obtain ⟨k1, v1⟩ := hd
      simp only [List.map_cons, List.nodup_cons] at h
      by_cases hk : k1 = k
      · subst hk
        simp only [eraseA, if_pos rfl]
        exact getA_none_of_not_mem t k1 h.1
      · simp [eraseA, getA, hk, ih h.2]

/-! ## getUser and setUser lemmas -/

theorem getUser_setUser_self (st : BotState) (u : Uid) (d : UserData) :
    getUser (setUser st u d) u = d := by
  simp [getUser, setUser, getA_setA_self]

theorem getUser_setUser_ne (st : BotState) (u v : Uid) (d : UserData) (h : u ≠ v) :
    getUser (setUser st u d) v = getUser st v := by
  simp [getUser, setUser, getA_setA_ne _ _ _ _ h]

theorem setUser_approvals (st : BotState) (u : Uid) (d : UserData) :
    (setUser st u d).approvals = st.approvals := rfl

/-! ## Branch lemmas: which step each callback payload selects -/

theorem button_new_input (ctx : BtnCtx) (st : BotState) :
    button ctx st "new_input" = { state := st, effects := [Effect.editOrReply guideText] } := rfl

theorem button_no_caption (ctx : BtnCtx) (st : BotState) :
    button ctx st "no_caption_poll" = noCaptionStep ctx st := rfl

theorem button_confirm_caption (ctx : BtnCtx) (st : BotState) :
    button ctx st "confirm_caption" = confirmCaptionStep ctx st := rfl

theorem button_confirm_poll (ctx : BtnCtx) (st : BotState) :
    button ctx st "confirm_poll" = confirmPollStep ctx st := rfl

theorem button_contact (ctx : BtnCtx) (st : BotState) (id : String) :
    button ctx st ("contact_post:" ++ id) = contactStep ctx st id := rfl

theorem button_reply (ctx : BtnCtx) (st : BotState) (id : String) :
    button ctx st ("reply_post:" ++ id) = replyStep ctx st id := rfl

theorem button_approve (ctx : BtnCtx) (st : BotState) (id : String) :
    button ctx st ("approve:" ++ id) = approveStep ctx st id := rfl

theorem button_disapprove (ctx : BtnCtx) (st : BotState) (id : String) :
    button ctx st ("disapprove:" ++ id) = disapproveStep ctx st id := rfl

/-! ## Effect-count lemmas for the publish path -/

theorem pollLoop_no_media (fuel attempt : Nat) (env : Nat → SendResult) (q : String)
    (opts : List String) : (pollLoop fuel attempt env q opts).filter isChannelMedia = [] := by
  induction fuel generalizing attempt with
  | zero => simp [pollLoop]
  | succ n ih => cases h : env attempt <;> simp [pollLoop, h, isChannelMedia, ih]

theorem notify_no_media (a : Approval) (text : String) :
    (notifySubmitter a text).filter isChannelMedia = [] := by
  cases hs : a.submitter with
  | none => simp [notifySubmitter, hs]
  | some s => cases hid : truthyId s.id <;> simp [notifySubmitter, hs, hid, isChannelMedia]

theorem forward_one_media (env : Nat → SendResult) (f : FileArg)
    (caption poll_question : Option String) (poll_options : Option (List String)) :
    ((forward_to_channel env f caption poll_question poll_options).filter isChannelMedia).length = 1 := by
  cases f with
  | album fids =>
      cases hq : truthyStr poll_question with
      | none => simp [forward_to_channel, hq, isChannelMedia]
      | some q =>
          cases ho : truthyList poll_options with
          | none => simp [forward_to_channel, hq, ho, isChannelMedia]
          | some opts => simp [forward_to_channel, hq, ho, isChannelMedia, pollLoop_no_media]
  | single fid =>
      cases hq : truthyStr poll_question with
      | none => simp [forward_to_channel, hq, isChannelMedia]
      | some q =>
          cases ho : truthyList poll_options with
          | none => simp [forward_to_channel, hq, ho, isChannelMedia]
          | some opts => simp [forward_to_channel, hq, ho, isChannelMedia, pollLoop_no_media]

/-! ## Album-assembler lemmas -/

theorem buffer_fresh_eq (st : AssemblerState) (chat : Uid) (mgid : String) (it : BufferedItem)
    (uid : Option Uid) (hfresh : getA st.groups (chat, mgid) = none) :
    buffer_media_group st chat mgid it uid =
      { groups := setA st.groups (chat, mgid)
          { items := [it], timer := some st.nextTimer, user_id := uid },
        nextTimer := st.nextTimer + 1,
        scheduled := (st.nextTimer, (chat, mgid)) :: st.scheduled,
        cancelled := st.cancelled } := by
  simp [buffer_media_group, hfresh]

theorem buffer_hit_eq (st : AssemblerState) (chat : Uid) (mgid : String) (it : BufferedItem)
    (uid : Option Uid) (e : PendingEntry) (t : Nat)
    (hget : getA st.groups (chat, mgid) = some e) (htimer : e.timer = some t) :
    buffer_media_group st chat mgid it uid =
      { groups := setA st.groups (chat, mgid)
          { e with items := e.items ++ [it], timer := some st.nextTimer },
        nextTimer := st.nextTimer + 1,
        scheduled := (st.nextTimer, (chat, mgid)) :: st.scheduled,
        cancelled := t :: st.cancelled } := by
  simp [buffer_media_group, hget, htimer]

theorem buffer_start (st : AssemblerState) (chat : Uid) (mgid : String) (it : BufferedItem)
    (uid : Option Uid)
    (hfresh : getA st.groups (chat, mgid) = none)
    (hlive : liveTimersFor st (chat, mgid) = [])
    (hbound : timerBound st) :
    GroupLive (buffer_media_group st chat mgid it uid) (chat, mgid) [it] := by
  obtain ⟨hb1, hb2⟩ := hbound
  rw [buffer_fresh_eq st chat mgid it uid hfresh]
  refine ⟨⟨?_, ?_⟩, ?_, ?_⟩
  · intro p hp
    dsimp only at hp ⊢
    rcases List.mem_cons.mp hp with h | h
    · subst h; omega
    · exact Nat.lt_trans (hb1 p h) (Nat.lt_succ_self _)
  · intro t ht
    dsimp only at ht ⊢
    exact Nat.lt_trans (hb2 t ht) (Nat.lt_succ_self _)
  · dsimp only
    rw [eraseA_setA_absent _ _ _ hfresh]
    exact hfresh
  · refine ⟨_, getA_setA_self _ _ _, ?_, st.nextTimer, ?_, ?_⟩
    · rfl
    · rfl
    · dsimp only
      simp only [liveTimersFor] at hlive ⊢
      dsimp only
      rw [List.filter_cons]
      have hnew : (decide (((st.nextTimer, (chat, mgid)) : Nat × (Uid × String)).2 = (chat, mgid)) &&
          decide (((st.nextTimer, (chat, mgid)) : Nat × (Uid × String)).1 ∉ st.cancelled)) = true := by
        simp only [Bool.and_eq_true, decide_eq_true_eq]
        exact ⟨by trivial, fun hmem => absurd (hb2 _ hmem) (by omega)⟩
      rw [hnew]
      have hnil : List.filter (fun p => decide (p.2 = (chat, mgid)) &&
          decide (p.1 ∉ st.cancelled)) st.scheduled = [] := List.map_eq_nil_iff.mp hlive
      rw [hnil]
      rfl

theorem buffer_step (st : AssemblerState) (chat : Uid) (mgid : String) (it : BufferedItem)
    (uid : Option Uid) (its : List BufferedItem)
    (h : GroupLive st (chat, mgid) its) :
    GroupLive (buffer_media_group st chat mgid it uid) (chat, mgid) (its ++ [it]) := by
  obtain ⟨⟨hb1, hb2⟩, hdup, e, hget, hitems, t, htimer, hlive⟩ := h
  have ht_lt : t < st.nextTimer := by
    have hmem : t ∈ liveTimersFor st (chat, mgid) := by
      rw [hlive]; exact List.mem_singleton.mpr rfl
    simp only [liveTimersFor, List.mem_map, List.mem_filter] at hmem
    obtain ⟨p, ⟨hp, _⟩, hpt⟩ := hmem
    exact hpt ▸ hb1 p hp
  rw [buffer_hit_eq st chat mgid it uid e t hget htimer]
  refine ⟨⟨?_, ?_⟩, ?_, ?_⟩
  · intro p hp
    dsimp only at hp ⊢
    rcases List.mem_cons.mp hp with hh | hh
    · subst hh; omega
    · exact Nat.lt_trans (hb1 p hh) (Nat.lt_succ_self _)
  · intro s hs
    dsimp only at hs ⊢
    rcases List.mem_cons.mp hs with hh | hh
    · omega
    · exact Nat.lt_trans (hb2 s hh) (Nat.lt_succ_self _)
  · dsimp only
    rw [eraseA_setA_present _ _ _ e hget]
    exact hdup
  · refine ⟨_, getA_setA_self _ _ _, ?_, st.nextTimer, ?_, ?_⟩
    · dsimp only
      rw [hitems]
    · rfl
    · dsimp only
      simp only [liveTimersFor]
      dsimp only
      rw [List.filter_cons]
      have hnew : (decide (((st.nextTimer, (chat, mgid)) : Nat × (Uid × String)).2 = (chat, mgid)) &&
          decide (((st.nextTimer, (chat, mgid)) : Nat × (Uid × String)).1 ∉ t :: st.cancelled)) = true := by
        simp only [Bool.and_eq_true, decide_eq_true_eq]
        refine ⟨by trivial, fun hmem => ?_⟩
        rcases List.mem_cons.mp hmem with hh | hh
        · omega
        · exact absurd (hb2 _ hh) (by omega)
      rw [hnew]
      have hnil : List.filter (fun p => decide (p.2 = (chat, mgid)) &&
          decide (p.1 ∉ t :: st.cancelled)) st.scheduled = [] := by
        rw [List.filter_eq_nil_iff]
        intro p hp hq
        simp only [Bool.and_eq_true, decide_eq_true_eq] at hq
        have hnotc : p.1 ∉ st.cancelled := fun hc => hq.2 (List.mem_cons_of_mem _ hc)
        have hpl : p.1 ∈ liveTimersFor st (chat, mgid) := by
          simp only [liveTimersFor, List.mem_map, List.mem_filter]
          exact ⟨p, ⟨hp, by simp [hq.1, hnotc]⟩, rfl⟩
        rw [hlive] at hpl
        have hpt : p.1 = t := List.mem_singleton.mp hpl
        exact hq.2 (hpt ▸ List.mem_cons_self _ _)
      rw [hnil]
      rfl

theorem ingest_fold (chat : Uid) (mgid : String) (uid : Option Uid)
    (items : List BufferedItem) :
    ∀ st its, GroupLive st (chat, mgid) its →
      GroupLive (ingestAll st chat mgid uid items) (chat, mgid) (its ++ items) := by
  induction items with
  | nil => intro st its h; simpa [ingestAll] using h
  | cons i rest ih =>
      intro st its h
      have h2 := ih (buffer_media_group st chat mgid i uid) (its ++ [i])
        (buffer_step st chat mgid i uid its h)
      simpa [ingestAll, List.append_assoc] using h2

/-! ## parse_poll support lemmas -/

theorem parse_poll_opts_len (t : String) (q : String) (opts : List String)
    (h : parse_poll t = some (q, opts)) : 2 ≤ opts.length := by
  unfold parse_poll at h
  rcases hc : pollCmdRest t with _ | g <;> rw [hc] at h
  · simp at h
  · dsimp only at h
    by_cases h1 : stripChars g = []
    · rw [if_pos h1] at h; simp at h
    · rw [if_neg h1] at h
      by_cases h2 : (((stripChars g).splitOn '|').map stripChars).length < 2
      · rw [if_pos h2] at h; simp at h
      · rw [if_neg h2] at h
        by_cases h3 : ((((((stripChars g).splitOn '|').map stripChars).drop 1).filter
            (fun p => !p.isEmpty)).map String.mk).length < 2
        · rw [if_pos h3] at h; simp at h
        · rw [if_neg h3] at h
          simp only [Option.some.injEq, Prod.mk.injEq] at h
          rw [← h.2]
          omega

/-! ## Claim C7: the New Input action -/

/-- Claim C7 counterexample: with a caption draft in the session, the
new_input callback re-shows the guidance and creates no approval entry,
but it does not discard the draft: the session still holds the caption
afterwards, refuting the discard part of the claim. -/
theorem c7_counterexample :
    (button sampleCtx c7st "new_input").state = c7st ∧
    (getUser (button sampleCtx c7st "new_input").state 7).caption = some "Draft" ∧
    (button sampleCtx c7st "new_input").state.approvals = [] ∧
    (button sampleCtx c7st "new_input").effects = [Effect.editOrReply guideText] := by
  decide

/-- Claim C7 (amended): the New Input callback re-shows the guidance text
and creates no approval entry; it leaves the whole state, the current
caption or poll draft included, unchanged. -/
theorem c7_theorem (ctx : BtnCtx) (st : BotState) :
    button ctx st "new_input" =
      { state := st, effects := [Effect.editOrReply guideText], aborted := false } := rfl

/-! ## Claim C10: no_caption_poll with no pending media -/

/-- Claim C10: a no_caption_poll callback finding neither a truthy pending
album nor a truthy pending single image replies that no image was found to
forward for approval, creates no approval entry and leaves the state
unchanged. -/
theorem c10_theorem (ctx : BtnCtx) (st : BotState)
    (h1 : truthyList (getUser st ctx.user_id).image_file_ids = none)
    (h2 : truthyStr (getUser st ctx.user_id).image_file_id = none) :
    button ctx st "no_caption_poll" =
      { state := st,
        effects := [Effect.editOrReply "No image found to forward for approval."],
        aborted := false } := by
  rw [button_no_caption]
  simp only [noCaptionStep, h1, h2]

/-- Claim C10 witness: a session holding an empty album list and an empty
single-image id, both falsy, gets the no-image reply and no mutation. -/
theorem c10_witness :
    (truthyList (getUser c10st sampleCtx.user_id).image_file_ids = none ∧
     truthyStr (getUser c10st sampleCtx.user_id).image_file_id = none) ∧
    button sampleCtx c10st "no_caption_poll" =
      { state := c10st,
        effects := [Effect.editOrReply "No image found to forward for approval."],
        aborted := false } :=
  ⟨⟨by decide, by decide⟩, c10_theorem sampleCtx c10st (by decide) (by decide)⟩

/-! ## Claim C4: session clearing when an approval entry is created -/

/-- Claim C4 evaluated at the failing input: confirm_poll on a session
holding a single image and a poll draft inserts the approval entry and
then aborts with UnboundLocalError (reply_markup is referenced before
assignment), so none of the enrichment keys is removed in that step.  The
unrelated contact_target also survives, and no reply is sent. -/
theorem c4_theorem :
    (button sampleCtx c4st "confirm_poll").aborted = true ∧
    getA (button sampleCtx c4st "confirm_poll").state.approvals "newid" =
      some { file_id := some "img", caption := some "Q", poll := some ["A", "B"],
             submitter := some { id := some 7, name := "7", username := none } } ∧
    (getUser (button sampleCtx c4st "confirm_poll").state 7).poll_options = some ["A", "B"] ∧
    (getUser (button sampleCtx c4st "confirm_poll").state 7).poll_question = some "Q" ∧
    (getUser (button sampleCtx c4st "confirm_poll").state 7).image_file_id = some "img" ∧
    (getUser (button sampleCtx c4st "confirm_poll").state 7).contact_target =
      some { approval_id := "prev", submitter_id := 42 } ∧
    (button sampleCtx c4st "confirm_poll").effects = [] := by
  decide

/-! ## Claim C5: routing of non-command text -/

/-- Claim C5 evaluated at the failing input: a non-command text from a
submitter with a pending single image and no relay session is consumed by
relay_messages, which is registered before handle_caption_poll in the same
dispatcher group and does nothing without a contact session; the
enrichment transition the claim describes is implemented only in
handle_caption_poll, which this update never reaches. -/
theorem c5_theorem :
    dispatchHandler c5upd = HandlerTag.relayMessages ∧
    relay_messages c5st 7 "Alice" c5upd = { state := c5st, effects := [], aborted := false } ∧
    (getUser (handle_caption_poll c5st 7 "My Caption").state 7).caption = some "My Caption" ∧
    (handle_caption_poll c5st 7 "My Caption").effects =
      [Effect.sendPhoto (Chat.user 7) (some "photo1") (some "My Caption") none,
       Effect.sendMessage (Chat.user 7)
         "Preview: photo caption. Confirm or provide new input." (some Kb.confirmCaption)] := by
  decide

/-! ## Claim C1: terminal moderator actions on an approval id -/

/-- Claim C1 counterexample: after the entry of id a1 has been consumed by
an approve, a disapprove on the same id publishes nothing and mutates
nothing but reports the generic acknowledgment, not the not-found
message the claim requires. -/
theorem c1_counterexample :
    (button sampleCtx (button sampleCtx c1st "approve:a1").state "disapprove:a1").effects =
      [Effect.editOrReply "Message disapproved."] ∧
    Effect.editOrReply notFoundMsg ∉
      (button sampleCtx (button sampleCtx c1st "approve:a1").state "disapprove:a1").effects ∧
    (button sampleCtx (button sampleCtx c1st "approve:a1").state "disapprove:a1").state =
      (button sampleCtx c1st "approve:a1").state := by
  decide

/-- Claim C1 (amended): the first approve or disapprove on an id removes
the entry; approve publishes exactly one media message to the channel and
disapprove publishes none.  A subsequent approve on a consumed id mutates
nothing, publishes nothing and reports the not-found message; a subsequent
disapprove also mutates nothing and publishes nothing but replies with the
generic disapproval acknowledgment instead of a not-found message. -/
theorem c1_theorem (ctx ctx2 : BtnCtx) (st st2 : BotState) (id : String) (entry : Approval)
    (hnodup : (st.approvals.map Prod.fst).Nodup)
    (hget : getA st.approvals id = some entry)
    (h2 : getA st2.approvals id = none) :
    getA (button ctx st ("approve:" ++ id)).state.approvals id = none ∧
    ((button ctx st ("approve:" ++ id)).effects.filter isChannelMedia).length = 1 ∧
    getA (button ctx st ("disapprove:" ++ id)).state.approvals id = none ∧
    ((button ctx st ("disapprove:" ++ id)).effects.filter isChannelMedia).length = 0 ∧
    button ctx2 st2 ("approve:" ++ id) =
      { state := st2, effects := [Effect.editOrReply notFoundMsg], aborted := false } ∧
    button ctx2 st2 ("disapprove:" ++ id) =
      { state := st2, effects := [Effect.editOrReply "Message disapproved."], aborted := false } := by
  simp only [button_approve, button_disapprove]
  refine ⟨?_, ?_, ?_, ?_, ?_, ?_⟩
  · cases htl : truthyList entry.file_ids <;>
      simp [approveStep, hget, htl, getA_eraseA_nodup _ _ hnodup]
  · cases htl : truthyList entry.file_ids <;>
      simp [approveStep, hget, htl, List.filter_append, forward_one_media, notify_no_media,
        isChannelMedia]
  · simp [disapproveStep, hget, getA_eraseA_nodup _ _ hnodup]
  · simp [disapproveStep, hget, List.filter_append, notify_no_media, isChannelMedia]
  · simp [approveStep, h2, eraseA_of_getA_none _ _ h2]
  · simp [disapproveStep, h2, eraseA_of_getA_none _ _ h2]

/-- Claim C1 witness: the single-photo entry a1 consumed by approve, and
the same callbacks replayed on a registry without the id. -/
theorem c1_witness :
    ((c1st.approvals.map Prod.fst).Nodup ∧ getA c1st.approvals "a1" = some c1entry ∧
      getA c1st2.approvals "a1" = none) ∧
    (getA (button sampleCtx c1st ("approve:" ++ "a1")).state.approvals "a1" = none ∧
     ((button sampleCtx c1st ("approve:" ++ "a1")).effects.filter isChannelMedia).length = 1 ∧
     getA (button sampleCtx c1st ("disapprove:" ++ "a1")).state.approvals "a1" = none ∧
     ((button sampleCtx c1st ("disapprove:" ++ "a1")).effects.filter isChannelMedia).length = 0 ∧
     button sampleCtx c1st2 ("approve:" ++ "a1") =
       { state := c1st2, effects := [Effect.editOrReply notFoundMsg], aborted := false } ∧
     button sampleCtx c1st2 ("disapprove:" ++ "a1") =
       { state := c1st2, effects := [Effect.editOrReply "Message disapproved."],
         aborted := false }) :=
  ⟨⟨by decide, by decide, by decide⟩,
   c1_theorem sampleCtx sampleCtx c1st c1st2 "a1" c1entry (by decide) (by decide) (by decide)⟩

/-! ## Claim C9: reachability probe before establishing a relay session -/

/-- Claim C9: for Reply and Contact on an existing approval with a truthy
submitter id, a failed probe leaves the state untouched (in particular
neither the owner-side contact_target nor the submitter-side
contact_source exists afterwards, given neither existed before) and the
moderator sees the fallback manual-contact hint; when the probe succeeds,
both session records are set. -/
theorem c9_theorem (ctx : BtnCtx) (st : BotState) (id : String) (entry : Approval)
    (s : Submitter) (sid : Uid)
    (hget : getA st.approvals id = some entry)
    (hsub : entry.submitter = some s)
    (hsid : truthyId s.id = some sid)
    (hnt : (getUser st ctx.user_id).contact_target = none)
    (hns : (getUser st sid).contact_source = none) :
    (ctx.probe ≠ ProbeResult.ok →
      (button ctx st ("reply_post:" ++ id)).state = st ∧
      (button ctx st ("contact_post:" ++ id)).state = st ∧
      (getUser (button ctx st ("reply_post:" ++ id)).state ctx.user_id).contact_target = none ∧
      (getUser (button ctx st ("reply_post:" ++ id)).state sid).contact_source = none ∧
      (getUser (button ctx st ("contact_post:" ++ id)).state ctx.user_id).contact_target = none ∧
      (getUser (button ctx st ("contact_post:" ++ id)).state sid).contact_source = none ∧
      (button ctx st ("reply_post:" ++ id)).effects =
        [Effect.sendMessage (Chat.user sid) replyPingText none,
         Effect.editOrReply (replyFailHint sid)] ∧
      (button ctx st ("contact_post:" ++ id)).effects =
        [Effect.sendMessage (Chat.user sid) contactPingText none,
         Effect.editOrReply (contactFailHint ctx.probe sid)]) ∧
    (ctx.probe = ProbeResult.ok →
      (getUser (button ctx st ("contact_post:" ++ id)).state ctx.user_id).contact_target =
        some { approval_id := id, submitter_id := sid } ∧
      (getUser (button ctx st ("contact_post:" ++ id)).state sid).contact_source =
        some { owner_id := ctx.user_id, approval_id := id } ∧
      (getUser (button ctx st ("reply_post:" ++ id)).state ctx.user_id).contact_target =
        some { approval_id := id, submitter_id := sid } ∧
      (getUser (button ctx st ("reply_post:" ++ id)).state sid).contact_source =
        some { owner_id := ctx.user_id, approval_id := id }) := by
  simp only [button_contact, button_reply]
  constructor
  · intro hfail
    cases hp : ctx.probe with
    | ok => exact absurd hp hfail
    | forbidden => simp [contactStep, replyStep, hget, hsub, hsid, hp, hnt, hns]
    | unauthorized => simp [contactStep, replyStep, hget, hsub, hsid, hp, hnt, hns]
    | other => simp [contactStep, replyStep, hget, hsub, hsid, hp, hnt, hns]
  · intro hok
    by_cases hsu : sid = ctx.user_id
    · subst hsu
      simp [contactStep, replyStep, hget, hsub, hsid, hok, getUser_setUser_self]
    · simp [contactStep, replyStep, hget, hsub, hsid, hok, getUser_setUser_self,
        getUser_setUser_ne _ _ _ _ (fun hh => hsu hh.symm),
        getUser_setUser_ne _ _ _ _ hsu]

/-- Claim C9 witness: a forbidden probe on the a1 approval establishes
nothing and shows the fallback hint. -/
theorem c9_witness :
    (getA c1st.approvals "a1" = some c1entry ∧ c1entry.submitter = some bobSubmitter ∧
      truthyId bobSubmitter.id = some 9 ∧
      (getUser c1st failCtx.user_id).contact_target = none ∧
      (getUser c1st (9 : Uid)).contact_source = none) ∧
    ((failCtx.probe ≠ ProbeResult.ok →
      (button failCtx c1st ("reply_post:" ++ "a1")).state = c1st ∧
      (button failCtx c1st ("contact_post:" ++ "a1")).state = c1st ∧
      (getUser (button failCtx c1st ("reply_post:" ++ "a1")).state failCtx.user_id).contact_target = none ∧
      (getUser (button failCtx c1st ("reply_post:" ++ "a1")).state (9 : Uid)).contact_source = none ∧
      (getUser (button failCtx c1st ("contact_post:" ++ "a1")).state failCtx.user_id).contact_target = none ∧
      (getUser (button failCtx c1st ("contact_post:" ++ "a1")).state (9 : Uid)).contact_source = none ∧
      (button failCtx c1st ("reply_post:" ++ "a1")).effects =
        [Effect.sendMessage (Chat.user 9) replyPingText none,
         Effect.editOrReply (replyFailHint 9)] ∧
      (button failCtx c1st ("contact_post:" ++ "a1")).effects =
        [Effect.sendMessage (Chat.user 9) contactPingText none,
         Effect.editOrReply (contactFailHint failCtx.probe 9)]) ∧
    (failCtx.probe = ProbeResult.ok →
      (getUser (button failCtx c1st ("contact_post:" ++ "a1")).state failCtx.user_id).contact_target =
        some { approval_id := "a1", submitter_id := 9 } ∧
      (getUser (button failCtx c1st ("contact_post:" ++ "a1")).state (9 : Uid)).contact_source =
        some { owner_id := failCtx.user_id, approval_id := "a1" } ∧
      (getUser (button failCtx c1st ("reply_post:" ++ "a1")).state failCtx.user_id).contact_target =
        some { approval_id := "a1", submitter_id := 9 } ∧
      (getUser (button failCtx c1st ("reply_post:" ++ "a1")).state (9 : Uid)).contact_source =
        some { owner_id := failCtx.user_id, approval_id := "a1" })) :=
  ⟨⟨by decide, by decide, by decide, by decide, by decide⟩,
   c9_theorem failCtx c1st "a1" c1entry bobSubmitter 9 (by decide) (by decide) (by decide)
     (by decide) (by decide)⟩

/-! ## Claim C2: one flush per album burst -/

/-- Claim C2: after a burst of N photo events with the same group key,
each arriving within the debounce window of the previous one (modelled as
no flush firing in between), exactly one live debounce timer points at the
key; the flush returns exactly the N file ids in arrival order together
with the first truthy caption; and a second flush of the same key
produces nothing and changes nothing. -/
theorem c2_theorem (st0 : AssemblerState) (chat : Uid) (mgid : String) (uid : Option Uid)
    (items : List BufferedItem)
    (hne : items ≠ [])
    (hfresh : getA st0.groups (chat, mgid) = none)
    (hlive : liveTimersFor st0 (chat, mgid) = [])
    (hbound : timerBound st0) :
    (liveTimersFor (ingestAll st0 chat mgid uid items) (chat, mgid)).length = 1 ∧
    (process_media_group (ingestAll st0 chat mgid uid items) chat mgid).2 =
      some (items.map (fun it => it.file_id), firstItemCaption items) ∧
    process_media_group
        (process_media_group (ingestAll st0 chat mgid uid items) chat mgid).1 chat mgid =
      ((process_media_group (ingestAll st0 chat mgid uid items) chat mgid).1, none) := by
  obtain ⟨i, rest, rfl⟩ : ∃ i rest, items = i :: rest := by
    cases items with
    | nil => exact absurd rfl hne
    | cons a b => exact ⟨a, b, rfl⟩
  have hstep : ingestAll st0 chat mgid uid (i :: rest) =
      ingestAll (buffer_media_group st0 chat mgid i uid) chat mgid uid rest := by
    simp [ingestAll]
  have hG := ingest_fold chat mgid uid rest (buffer_media_group st0 chat mgid i uid) [i]
    (buffer_start st0 chat mgid i uid hfresh hlive hbound)
  rw [hstep]
  simp only [List.singleton_append] at hG
  obtain ⟨_, hdup, e, hget, hitems, t, htimer, hlivef⟩ := hG
  refine ⟨?_, ?_, ?_⟩
  · rw [hlivef]; rfl
  · simp [process_media_group, hget, hitems]
  · simp [process_media_group, hget, hitems, hdup]

/-- Claim C2 witness: a three-item burst on a fresh assembler flushes to
the three file ids in order with the first truthy caption, and flushes
only once. -/
theorem c2_witness :
    (c2items ≠ [] ∧ getA emptyAsm.groups ((5 : Uid), "g") = none ∧
      liveTimersFor emptyAsm ((5 : Uid), "g") = [] ∧ timerBound emptyAsm) ∧
    ((liveTimersFor (ingestAll emptyAsm 5 "g" (some 7) c2items) ((5 : Uid), "g")).length = 1 ∧
     (process_media_group (ingestAll emptyAsm 5 "g" (some 7) c2items) 5 "g").2 =
       some (c2items.map (fun it => it.file_id), firstItemCaption c2items) ∧
     process_media_group
         (process_media_group (ingestAll emptyAsm 5 "g" (some 7) c2items) 5 "g").1 5 "g" =
       ((process_media_group (ingestAll emptyAsm 5 "g" (some 7) c2items) 5 "g").1, none)) :=
  ⟨⟨by decide, by decide, by decide, by exact ⟨by simp [emptyAsm], by simp [emptyAsm]⟩⟩,
   c2_theorem emptyAsm 5 "g" (some 7) c2items (by decide) (by decide) (by decide)
     (by exact ⟨by simp [emptyAsm], by simp [emptyAsm]⟩)⟩

/-! ## Claim C8: publish ordering and the poll retry policy -/

/-- Claim C8: when an approved submission carries a poll, the channel
publish sends the media message first and the poll afterwards; the poll
send is attempted at most 3 times, with a later attempt occurring only
after the earlier one timed out, and a fixed one-second sleep between
attempts; any non-timeout error stops the loop and nothing is fatal.  The
media send itself happens exactly once whatever the poll outcomes, and a
publish without a poll performs a single media send and no poll send. -/
theorem c8_theorem (env : Nat → SendResult) (fid : String) (fids : List String)
    (caption : Option String) (q : String) (opts : List String)
    (hq : q ≠ "") (hopts : opts ≠ []) :
    (forward_to_channel env (FileArg.single (some fid)) caption (some q) (some opts)).head? =
      some (Effect.sendPhoto Chat.channel (some fid) caption none) ∧
    (forward_to_channel env (FileArg.album fids) caption (some q) (some opts)).head? =
      some (Effect.sendMediaGroup Chat.channel fids (truthyStr caption)) ∧
    ((forward_to_channel env (FileArg.single (some fid)) caption (some q) (some opts)).filter
        isPollSend).length = attemptsTaken env ∧
    ((forward_to_channel env (FileArg.album fids) caption (some q) (some opts)).filter
        isPollSend).length = attemptsTaken env ∧
    attemptsTaken env ≤ 3 ∧
    (1 < attemptsTaken env → env 0 = SendResult.timedOut) ∧
    (2 < attemptsTaken env → env 1 = SendResult.timedOut) ∧
    ((forward_to_channel env (FileArg.single (some fid)) caption (some q) (some opts)).filter
        isChannelMedia).length = 1 ∧
    ((forward_to_channel env (FileArg.album fids) caption (some q) (some opts)).filter
        isChannelMedia).length = 1 ∧
    forward_to_channel env (FileArg.single (some fid)) caption none none =
      [Effect.sendPhoto Chat.channel (some fid) caption none] := by
  have htq : truthyStr (some q) = some q := by simp [truthyStr, hq]
  have hto : truthyList (some opts) = some opts := by simp [truthyList, hopts]
  refine ⟨?_, ?_, ?_, ?_, ?_, ?_, ?_,
    forward_one_media env (FileArg.single (some fid)) caption (some q) (some opts),
    forward_one_media env (FileArg.album fids) caption (some q) (some opts), ?_⟩
  · simp [forward_to_channel, htq, hto]
  · simp [forward_to_channel, htq, hto]
  · rcases h0 : env 0 <;> rcases h1 : env 1 <;> rcases h2 : env 2 <;>
      simp [forward_to_channel, htq, hto, pollLoop, h0, h1, h2, attemptsTaken, isPollSend]
  · rcases h0 : env 0 <;> rcases h1 : env 1 <;> rcases h2 : env 2 <;>
      simp [forward_to_channel, htq, hto, pollLoop, h0, h1, h2, attemptsTaken, isPollSend]
  · rcases h0 : env 0 <;> rcases h1 : env 1 <;> simp [attemptsTaken, h0, h1]
  · rcases h0 : env 0 <;> rcases h1 : env 1 <;> simp [attemptsTaken, h0, h1]
  · rcases h0 : env 0 <;> rcases h1 : env 1 <;> simp [attemptsTaken, h0, h1]
  · simp [forward_to_channel, truthyStr, truthyList]

/-- Claim C8 witness: under outcomes where the first poll attempt times
out and the second succeeds, publishing a single photo with a poll sends
the photo first and exactly two poll attempts. -/
theorem c8_witness :
    ("Q" ≠ "" ∧ (["O1", "O2"] : List String) ≠ []) ∧
    ((forward_to_channel retryEnv (FileArg.single (some "f")) (some "Cap") (some "Q")
        (some ["O1", "O2"])).head? =
      some (Effect.sendPhoto Chat.channel (some "f") (some "Cap") none) ∧
    (forward_to_channel retryEnv (FileArg.album ["a", "b"]) (some "Cap") (some "Q")
        (some ["O1", "O2"])).head? =
      some (Effect.sendMediaGroup Chat.channel ["a", "b"] (truthyStr (some "Cap"))) ∧
    ((forward_to_channel retryEnv (FileArg.single (some "f")) (some "Cap") (some "Q")
        (some ["O1", "O2"])).filter isPollSend).length = attemptsTaken retryEnv ∧
    ((forward_to_channel retryEnv (FileArg.album ["a", "b"]) (some "Cap") (some "Q")
        (some ["O1", "O2"])).filter isPollSend).length = attemptsTaken retryEnv ∧
    attemptsTaken retryEnv ≤ 3 ∧
    (1 < attemptsTaken retryEnv → retryEnv 0 = SendResult.timedOut) ∧
    (2 < attemptsTaken retryEnv → retryEnv 1 = SendResult.timedOut) ∧
    ((forward_to_channel retryEnv (FileArg.single (some "f")) (some "Cap") (some "Q")
        (some ["O1", "O2"])).filter isChannelMedia).length = 1 ∧
    ((forward_to_channel retryEnv (FileArg.album ["a", "b"]) (some "Cap") (some "Q")
        (some ["O1", "O2"])).filter isChannelMedia).length = 1 ∧
    forward_to_channel retryEnv (FileArg.single (some "f")) (some "Cap") none none =
      [Effect.sendPhoto Chat.channel (some "f") (some "Cap") none]) :=
  ⟨⟨by decide, by decide⟩,
   c8_theorem retryEnv "f" ["a", "b"] (some "Cap") "Q" ["O1", "O2"] (by decide) (by decide)⟩

/-! ## Claim C6: overwriting drafts (last-write-wins) -/

/-- Claim C6 counterexample: a caption draft followed by a poll draft on
the same single-image session leaves both drafts present in the session at
once, refuting the part of the claim that exactly one draft type is
present after the second input. -/
theorem c6_counterexample :
    (getUser (handle_caption_poll
        (handle_caption_poll c3st 7 "Hello").state 7 "/poll Q|A|B").state 7).caption =
      some "Hello" ∧
    (getUser (handle_caption_poll
        (handle_caption_poll c3st 7 "Hello").state 7 "/poll Q|A|B").state 7).poll_options =
      some ["A", "B"] ∧
    (getUser (handle_caption_poll
        (handle_caption_poll c3st 7 "Hello").state 7 "/poll Q|A|B").state 7).poll_question =
      some "Q" := by
  decide

/-- Claim C6 (amended): submitting a caption draft and then a poll draft,
or a poll draft and then a caption draft, on an album or a single-image
session overwrites only the draft of the same type: after the second input
both draft values are present in the session, the latest input holding its
values.  The confirmation control presented with the latest preview
targets the latest draft type, and the approval entry created through it
carries the latest draft (caption entries carry no poll; poll entries
carry the poll question and options, never the stale caption).  On the
single-image poll confirmation the handler aborts right after creating
that entry, but the entry it created still holds the latest draft. -/
theorem c6_theorem :
    (∀ (ctx : BtnCtx) (st : BotState) (fids : List String) (t1 t2 q : String)
        (opts : List String),
      (getUser st ctx.user_id).image_file_ids = some fids →
      parse_poll t1 = none → parse_poll t2 = some (q, opts) →
      (getUser (handle_caption_poll
          (handle_caption_poll st ctx.user_id t1).state ctx.user_id t2).state ctx.user_id).caption =
        some t1 ∧
      (getUser (handle_caption_poll
          (handle_caption_poll st ctx.user_id t1).state ctx.user_id t2).state
          ctx.user_id).poll_question = some q ∧
      (getUser (handle_caption_poll
          (handle_caption_poll st ctx.user_id t1).state ctx.user_id t2).state
          ctx.user_id).poll_options = some opts ∧
      (handle_caption_poll
          (handle_caption_poll st ctx.user_id t1).state ctx.user_id t2).effects =
        [Effect.sendMediaGroup (Chat.user ctx.user_id) fids (some q),
         Effect.sendMessage (Chat.user ctx.user_id)
           "Preview: album with poll. Confirm or provide new input." (some Kb.confirmPoll)] ∧
      getA (button ctx (handle_caption_poll
          (handle_caption_poll st ctx.user_id t1).state ctx.user_id t2).state
          "confirm_poll").state.approvals ctx.fresh_id =
        some { file_ids := some fids, caption := some q, poll := some opts,
               submitter := some (resolveSubmitter ctx ctx.user_id) }) ∧
    (∀ (ctx : BtnCtx) (st : BotState) (fids : List String) (t1 t2 q : String)
        (opts : List String),
      (getUser st ctx.user_id).image_file_ids = some fids →
      parse_poll t1 = some (q, opts) → parse_poll t2 = none →
      (getUser (handle_caption_poll
          (handle_caption_poll st ctx.user_id t1).state ctx.user_id t2).state ctx.user_id).caption =
        some t2 ∧
      (getUser (handle_caption_poll
          (handle_caption_poll st ctx.user_id t1).state ctx.user_id t2).state
          ctx.user_id).poll_question = some q ∧
      (getUser (handle_caption_poll
          (handle_caption_poll st ctx.user_id t1).state ctx.user_id t2).state
          ctx.user_id).poll_options = some opts ∧
      (handle_caption_poll
          (handle_caption_poll st ctx.user_id t1).state ctx.user_id t2).effects =
        [Effect.sendMediaGroup (Chat.user ctx.user_id) fids (some t2),
         Effect.sendMessage (Chat.user ctx.user_id)
           "Preview: album caption. Confirm or provide new input." (some Kb.confirmCaption)] ∧
      getA (button ctx (handle_caption_poll
          (handle_caption_poll st ctx.user_id t1).state ctx.user_id t2).state
          "confirm_caption").state.approvals ctx.fresh_id =
        some { file_ids := some fids, caption := some t2, poll := none,
               submitter := some (resolveSubmitter ctx ctx.user_id) }) ∧
    (∀ (ctx : BtnCtx) (st : BotState) (f t1 t2 q : String) (opts : List String),
      (getUser st ctx.user_id).image_file_ids = none →
      (getUser st ctx.user_id).image_file_id = some f →
      parse_poll t1 = none → parse_poll t2 = some (q, opts) →
      (getUser (handle_caption_poll
          (handle_caption_poll st ctx.user_id t1).state ctx.user_id t2).state ctx.user_id).caption =
        some t1 ∧
      (getUser (handle_caption_poll
          (handle_caption_poll st ctx.user_id t1).state ctx.user_id t2).state
          ctx.user_id).poll_question = some q ∧
      (getUser (handle_caption_poll
          (handle_caption_poll st ctx.user_id t1).state ctx.user_id t2).state
          ctx.user_id).poll_options = some opts ∧
      (handle_caption_poll
          (handle_caption_poll st ctx.user_id t1).state ctx.user_id t2).effects =
        [Effect.sendPhoto (Chat.user ctx.user_id) (some f) (some q) none,
         Effect.sendMessage (Chat.user ctx.user_id)
           "Preview: photo with poll. Confirm or provide new input." (some Kb.confirmPoll)] ∧
      getA (button ctx (handle_caption_poll
          (handle_caption_poll st ctx.user_id t1).state ctx.user_id t2).state
          "confirm_poll").state.approvals ctx.fresh_id =
        some { file_id := some f, caption := some q, poll := some opts,
               submitter := some (resolveSubmitter ctx ctx.user_id) } ∧
      (button ctx (handle_caption_poll
          (handle_caption_poll st ctx.user_id t1).state ctx.user_id t2).state
          "confirm_poll").aborted = true) ∧
    (∀ (ctx : BtnCtx) (st : BotState) (f t1 t2 q : String) (opts : List String),
      (getUser st ctx.user_id).image_file_ids = none →
      (getUser st ctx.user_id).image_file_id = some f →
      parse_poll t1 = some (q, opts) → parse_poll t2 = none →
      (getUser (handle_caption_poll
          (handle_caption_poll st ctx.user_id t1).state ctx.user_id t2).state ctx.user_id).caption =
        some t2 ∧
      (getUser (handle_caption_poll
          (handle_caption_poll st ctx.user_id t1).state ctx.user_id t2).state
          ctx.user_id).poll_question = some q ∧
      (getUser (handle_caption_poll
          (handle_caption_poll st ctx.user_id t1).state ctx.user_id t2).state
          ctx.user_id).poll_options = some opts ∧
      (handle_caption_poll
          (handle_caption_poll st ctx.user_id t1).state ctx.user_id t2).effects =
        [Effect.sendPhoto (Chat.user ctx.user_id) (some f) (some t2) none,
         Effect.sendMessage (Chat.user ctx.user_id)
           "Preview: photo caption. Confirm or provide new input." (some Kb.confirmCaption)] ∧
      getA (button ctx (handle_caption_poll
          (handle_caption_poll st ctx.user_id t1).state ctx.user_id t2).state
          "confirm_caption").state.approvals ctx.fresh_id =
        some { file_id := some f, caption := some t2, poll := none,
               submitter := some (resolveSubmitter ctx ctx.user_id) }) := by
  refine ⟨?_, ?_, ?_, ?_⟩
  · intro ctx st fids t1 t2 q opts hfids h1 h2
    have hlen := parse_poll_opts_len t2 q opts h2
    have hnl : ¬ opts.length < 2 := by omega
    simp [handle_caption_poll, hfids, h1, h2, hnl, getUser_setUser_self, button_confirm_poll,
      confirmPollStep, clearEnrichment, getA_setA_self, setUser_approvals]
  · intro ctx st fids t1 t2 q opts hfids h1 h2
    have hlen := parse_poll_opts_len t1 q opts h1
    have hnl : ¬ opts.length < 2 := by omega
    simp [handle_caption_poll, hfids, h1, h2, hnl, getUser_setUser_self,
      button_confirm_caption, confirmCaptionStep, clearEnrichment, getA_setA_self,
      setUser_approvals]
  · intro ctx st f t1 t2 q opts hids hid h1 h2
    have hlen := parse_poll_opts_len t2 q opts h2
    have hnl : ¬ opts.length < 2 := by omega
    simp [handle_caption_poll, hids, hid, h1, h2, hnl, getUser_setUser_self,
      button_confirm_poll, confirmPollStep, getA_setA_self, setUser_approvals]
  · intro ctx st f t1 t2 q opts hids hid h1 h2
    have hlen := parse_poll_opts_len t1 q opts h1
    have hnl : ¬ opts.length < 2 := by omega
    simp [handle_caption_poll, hids, hid, h1, h2, hnl, getUser_setUser_self,
      button_confirm_caption, confirmCaptionStep, clearEnrichment, getA_setA_self,
      setUser_approvals]

/-! ## Claim C3: poll parsing and the fate of a rejected poll -/

/-- Claim C3 counterexample: a /poll command with a single option is
rejected by parse_poll, but the handler then treats it like any other
text: the raw text becomes the caption draft and the dialog advances to
confirmation, refuting the claim that a rejected poll leaves the dialog
awaiting enrichment input with no state change. -/
theorem c3_counterexample :
    parse_poll "/poll Q|A" = none ∧
    (getUser (handle_caption_poll c3st 7 "/poll Q|A").state 7).caption = some "/poll Q|A" ∧
    (handle_caption_poll c3st 7 "/poll Q|A").state ≠ c3st ∧
    (handle_caption_poll c3st 7 "/poll Q|A").effects =
      [Effect.sendPhoto (Chat.user 7) (some "img") (some "/poll Q|A") none,
       Effect.sendMessage (Chat.user 7)
         "Preview: photo caption. Confirm or provide new input." (some Kb.confirmCaption)] := by
  decide

/-- Claim C3 (amended): the stated examples hold; a text not matching the
/poll command token parses to nothing; for a matching text the question is
the trimmed first segment and the options are the trimmed non-empty later
segments, the parse succeeding exactly when at least two options survive;
and a rejected poll command, like any other non-matching text, becomes
the caption draft and advances the dialog to confirmation. -/
theorem c3_theorem :
    parse_poll "/poll Q|A|B" = some ("Q", ["A", "B"]) ∧
    parse_poll "/poll Q|A" = none ∧
    parse_poll "/poll Q| A | B |" = some ("Q", ["A", "B"]) ∧
    (∀ text : String, pollCmdRest text = none → parse_poll text = none) ∧
    (∀ (text : String) (g : List Char), pollCmdRest text = some g →
      parse_poll text =
        (if 2 ≤ (pollOptionsOf g).length
         then some (pollQuestionOf g, (pollOptionsOf g).map String.mk)
         else none)) ∧
    (∀ (st : BotState) (uid : Uid) (t f : String),
      (getUser st uid).image_file_ids = none →
      (getUser st uid).image_file_id = some f →
      parse_poll t = none →
      handle_caption_poll st uid t =
        { state := setUser st uid { getUser st uid with caption := some t },
          effects := [Effect.sendPhoto (Chat.user uid) (some f) (some t) none,
                      Effect.sendMessage (Chat.user uid)
                        "Preview: photo caption. Confirm or provide new input."
                        (some Kb.confirmCaption)],
          aborted := false }) := by
  refine ⟨by decide, by decide, by decide, ?_, ?_, ?_⟩
  · intro text hc
    unfold parse_poll
    rw [hc]
  · intro text g hc
    unfold parse_poll
    rw [hc]
    dsimp only
    simp only [pollOptionsOf, pollQuestionOf, pollSegmentsOf]
    by_cases h1 : stripChars g = []
    · rw [if_pos h1, h1]
      have hs : (([] : List Char).splitOn '|') = [[]] := by decide
      rw [hs]
      simp [stripChars]
    · rw [if_neg h1]
      by_cases h2 : (((stripChars g).splitOn '|').map stripChars).length < 2
      · rw [if_pos h2]
        have hfl := List.length_filter_le (fun p => !p.isEmpty)
          ((((stripChars g).splitOn '|').map stripChars).drop 1)
        have hdl := List.length_drop 1 (((stripChars g).splitOn '|').map stripChars)
        rw [if_neg (by omega)]
      · rw [if_neg h2]
        by_cases h3 : ((((((stripChars g).splitOn '|').map stripChars).drop 1).filter
            (fun p => !p.isEmpty)).map String.mk).length < 2
        · rw [if_pos h3]
          rw [List.length_map] at h3
          rw [if_neg (by omega)]
        · rw [if_neg h3]
          rw [List.length_map] at h3
          rw [if_pos (by omega)]
  · intro st uid t f hids hid hp
    simp [handle_caption_poll, hids, hid, hp]

end ForwardBot
